import Mathlib

/-!
Verification development for the candypi candy dispenser.

The repository has two source files:
* src/fedimint.rs — the payment confirmation coordinator built on the
  Fedimint client SDK: invoice issuance (lightning_invoice), and payment
  awaiting (await_payment, await_payment_by_hash).
* src/main.rs — the hardware main program: display, stdin loop,
  motor actuation (dispense_candy).

We give a shallow embedding of both files. The Fedimint client SDK
(operation log, gateway list, transition streams) is external state the
coordinator reads; we model it as explicit state carried in a structure.
Rust functions returning anyhow results become functions into RunResult,
with a separate constructor for a panic, since the code contains an
unreachable macro invocation that aborts rather than returning.
-/

namespace CandyPi

/-- The result of running a Rust function of type anyhow Result of unit:
either Ok, or Err with the anyhow message, or a panic (from the
unreachable macro) with the panic message. -/
inductive RunResult where
  | ok : RunResult
  | err : String → RunResult
  | panic : String → RunResult
  deriving DecidableEq, Repr

/-- Whether the run ended in an Err return (a value returned to the
caller through the error channel); a panic is not an Err return. -/
def RunResult.isErr : RunResult → Bool
  | .err _ => true
  | _ => false

/-- The states of an incoming Lightning payment delivered on the
transition stream (fedimint_ln_client LnReceiveState): Created,
WaitingForPayment, Funded, AwaitingFunds are transient; Claimed and
Canceled (with a reason string) are terminal. -/
inductive LnReceiveState where
  | created : LnReceiveState
  | waitingForPayment : LnReceiveState
  | funded : LnReceiveState
  | awaitingFunds : LnReceiveState
  | claimed : LnReceiveState
  | canceled : String → LnReceiveState
  deriving DecidableEq, Repr

/-- Terminal states are exactly Claimed and Canceled: the two arms on
which the while loop in await_payment_by_hash returns. -/
def LnReceiveState.isTerminal : LnReceiveState → Bool
  | .claimed => true
  | .canceled _ => true
  | _ => false

/-- A sha256 payment hash, as its byte sequence. -/
structure Sha256Hash where
  bytes : List Nat
  deriving DecidableEq, Repr

/-- An operation identifier in the Fedimint operation log. -/
abbrev OperationId := List Nat

/-- fedimint.rs line 172: the operation identifier is built from the raw
bytes of the payment hash, and nothing else. -/
def OperationId.ofHash (h : Sha256Hash) : OperationId := h.bytes

/-- The variant of a Lightning operation metadata record
(LightningOperationMetaVariant): an outgoing payment or an incoming
receive. -/
inductive LightningOperationMetaVariant where
  | pay : LightningOperationMetaVariant
  | receive : LightningOperationMetaVariant
  deriving DecidableEq, Repr

/-- Whether the metadata variant is the incoming payment variant, the
condition tested by the matches macro in fedimint.rs lines 188 to 194. -/
def LightningOperationMetaVariant.isReceive : LightningOperationMetaVariant → Bool
  | .receive => true
  | .pay => false

/-- An entry of the client operation log: carries the module kind tag
(operation_module_kind) and the Lightning metadata variant. -/
structure OperationLogEntry where
  kind : String
  variant : LightningOperationMetaVariant
  deriving DecidableEq, Repr

/-- An opaque Lightning gateway as reported by the backend. -/
structure Gateway where
  gid : Nat
  deriving DecidableEq, Repr

/-- A BOLT11 invoice: the payment hash, the amount in millisats and the
description it was created with. -/
structure Bolt11Invoice where
  paymentHash : Sha256Hash
  amountMsats : Nat
  description : String
  deriving DecidableEq, Repr

/-- The external Fedimint client state the coordinator reads and the
backend writes: the gateway list, the operation log keyed by operation
identifier, the per-operation transition streams, and the payment hash
the backend will assign to the next created invoice. -/
structure FedimintState where
  gateways : List Gateway
  operationLog : List (OperationId × OperationLogEntry)
  streams : List (OperationId × List LnReceiveState)
  nextHash : Sha256Hash
  deriving Repr

/-- Look up the operation log entry for an operation identifier
(operation_log().get_operation(operation_id)). -/
def lookupOperation (st : FedimintState) (oid : OperationId) : Option OperationLogEntry :=
  (st.operationLog.find? (fun p => p.1 == oid)).map Prod.snd

/-- Look up the transition stream for an operation identifier; a missing
stream models subscribe_ln_receive failing, which the code surfaces with
the context message on fedimint.rs line 200. -/
def lookupStream (st : FedimintState) (oid : OperationId) : Option (List LnReceiveState) :=
  (st.streams.find? (fun p => p.1 == oid)).map Prod.snd

/-- The while let loop of await_payment_by_hash (fedimint.rs lines 202
to 214) on a bounded stream: a Canceled event returns an Err whose
message embeds the reason, a Claimed event returns Ok, any other event
is skipped, and an exhausted stream reaches the unreachable macro, a
panic. The second component is the suffix of the stream that was never
pulled (the events after the first terminal one). -/
def watchRun : List LnReceiveState → RunResult × List LnReceiveState
  | [] => (.panic "Stream ended unexpectedly", [])
  | .canceled reason :: rest => (.err ("Payment was canceled: " ++ reason), rest)
  | .claimed :: rest => (.ok, rest)
  | .created :: rest => watchRun rest
  | .waitingForPayment :: rest => watchRun rest
  | .funded :: rest => watchRun rest
  | .awaitingFunds :: rest => watchRun rest

/-- await_payment_by_hash (fedimint.rs lines 171 to 215), instrumented:
the second component records whether subscribe_ln_receive was invoked.
Steps in source order: derive the operation identifier from the hash
bytes; look up the operation (missing: Err, line 179); require kind ln
(line 182); require the Receive metadata variant (line 188); only then
subscribe to the transition stream and run the while loop. -/
def awaitPaymentByHashRun (st : FedimintState) (payment_hash : Sha256Hash) :
    RunResult × Bool :=
  let operation_id := OperationId.ofHash payment_hash
  match lookupOperation st operation_id with
  | none => (.err "No operation found for payment hash, was the invoice issued by us?", false)
  | some operation =>
    if operation.kind == "ln" then
      if operation.variant.isReceive then
        match lookupStream st operation_id with
        | none => (.err "Unexpected error subscribing to operation", true)
        | some stream => ((watchRun stream).1, true)
      else
        (.err "Operation associated with the payment hash is not an incoming payment", false)
    else
      (.err "Operation associated with payment hash is not an LN operation", false)

/-- The result await_payment_by_hash returns to its caller. -/
def await_payment_by_hash (st : FedimintState) (payment_hash : Sha256Hash) : RunResult :=
  (awaitPaymentByHashRun st payment_hash).1

/-- await_payment (fedimint.rs lines 167 to 169): delegates to
await_payment_by_hash on the payment hash of the invoice. -/
def await_payment (st : FedimintState) (invoice : Bolt11Invoice) : RunResult :=
  await_payment_by_hash st invoice.paymentHash

/-- Modelled from the spec: validity of a BOLT11 description as checked
by Description::new in the lightning_invoice crate (not part of this
repository), which rejects descriptions longer than 639 bytes. -/
def descriptionValid (d : String) : Bool :=
  d.utf8ByteSize ≤ 639

/-- Modelled from the spec: the backend call create_bolt11_invoice of
the Fedimint SDK (not part of this repository). Per the spec it returns
a fresh invoice whose correlation key mirrors the payment hash and, as
a side effect, registers an operation record of the Lightning module
kind with the incoming payment variant under that key in the operation
log. -/
def create_bolt11_invoice (st : FedimintState) (amount_msats : Nat)
    (description : String) (_gw : Gateway) : Bolt11Invoice × FedimintState :=
  let invoice : Bolt11Invoice :=
    { paymentHash := st.nextHash, amountMsats := amount_msats, description := description }
  let entry : OperationLogEntry := { kind := "ln", variant := .receive }
  (invoice,
    { st with operationLog := (OperationId.ofHash st.nextHash, entry) :: st.operationLog })

/-- Modelled from the spec: get_gateway of the Fedimint SDK picks the
first available gateway from the list the backend reports, or none. -/
def get_gateway (st : FedimintState) : Option Gateway :=
  st.gateways.head?

/-- lightning_invoice (fedimint.rs lines 143 to 165), instrumented: the
second component records the amount and description passed to
create_bolt11_invoice, or none when the backend create call was never
reached. Steps in source order: fetch a gateway (none: Err, line 153);
validate the description through Description::new; call
create_bolt11_invoice with the amount passed through unchanged. -/
def lightningInvoiceRun (st : FedimintState) (amount_msats : Nat) (description : String) :
    Except String (Bolt11Invoice × FedimintState) × Option (Nat × String) :=
  match get_gateway st with
  | none => (.error "No LN gateway available", none)
  | some gw =>
    if descriptionValid description then
      (.ok (create_bolt11_invoice st amount_msats description gw),
        some (amount_msats, description))
    else
      (.error "InvalidDescription", none)

/-- The result lightning_invoice returns to its caller. -/
def lightning_invoice (st : FedimintState) (amount_msats : Nat) (description : String) :
    Except String (Bolt11Invoice × FedimintState) :=
  (lightningInvoiceRun st amount_msats description).1

/-! ## main.rs: the hardware main program

main.rs imports nothing from fedimint.rs: the main loop reads lines from
stdin and dispenses on every successfully read line. We model the GPIO
motor pin as a boolean (true is high), record every write to the pin in
a trace, record the pin level at the head of every loop iteration, and
count how many times dispense_candy ran and how many times any payment
awaiting function of the coordinator was called (which, in main.rs as
written, is never). Display calls are fallible in the source; the
question mark operator propagates their errors out of main, so the model
threads a list of booleans giving each successive display call result
(exhaustion of the list means success). -/

/-- main.rs line 20: the fixed dispense duration in milliseconds. -/
def MOTOR_DISPENSE_DURATION_MS : Nat := 500

/-- main.rs line 19: the BCM number of the motor GPIO pin. -/
def MOTOR_PIN : Nat := 4

/-- The observable machine state threaded through the model of main:
the current motor pin level, the full trace of levels written to the
motor pin, the pin level sampled at the head of each main loop
iteration, the number of completed dispense_candy runs, the number of
calls into await_payment or await_payment_by_hash, and whether main
returned early through the question mark operator on a display error. -/
structure MachineState where
  motorPin : Bool
  pinTrace : List Bool
  loopHeads : List Bool
  dispenses : Nat
  awaitPaymentCalls : Nat
  earlyReturn : Bool
  deriving DecidableEq, Repr

/-- dispense_candy (main.rs lines 277 to 287): drives the motor pin
high, sleeps MOTOR_DISPENSE_DURATION_MS milliseconds, drives it low,
and returns Ok unconditionally. The pin trace records the high then the
low write; the pin ends low. -/
def dispense_candy (m : MachineState) : MachineState × Except String Unit :=
  ({ m with
      motorPin := false
      pinTrace := m.pinTrace ++ [true, false]
      dispenses := m.dispenses + 1 },
    .ok ())

/-- One stdin read result of lines.next(): some Ok line, some Err, or
none at end of input. -/
abbrev StdinItem := Except String String

/-- The main loop (main.rs lines 327 to 361). Each iteration first
samples the motor pin level (recorded in loopHeads), then matches the
next stdin item: an Ok line shows the payment success screen (display
error: early return), runs dispense_candy, and on either of its results
shows a fresh invoice screen (display error: early return) before
looping; an Err item or end of input breaks out of the loop. Display
results are consumed from the head of the disp list; an exhausted list
means the display call succeeded. -/
def mainLoop : List StdinItem → List Bool → MachineState → MachineState
  | [], _, m => { m with loopHeads := m.loopHeads ++ [m.motorPin] }
  | .error _ :: _, _, m => { m with loopHeads := m.loopHeads ++ [m.motorPin] }
  | .ok _ :: rest, disp, m =>
    let m1 := { m with loopHeads := m.loopHeads ++ [m.motorPin] }
    if disp.headD true = false then { m1 with earlyReturn := true }
    else
      let m2 := (dispense_candy m1).1
      match (dispense_candy m1).2 with
      | .ok _ =>
        if disp.tail.headD true = false then { m2 with earlyReturn := true }
        else mainLoop rest disp.tail.tail m2
      | .error _ =>
        if disp.tail.headD true = false then { m2 with earlyReturn := true }
        else mainLoop rest disp.tail.tail m2

/-- The machine state right after motor initialization (main.rs lines
310 to 311): the motor pin is driven low; nothing has been dispensed
and no payment awaiting call has been made. -/
def initState : MachineState :=
  { motorPin := false
    pinTrace := [false]
    loopHeads := []
    dispenses := 0
    awaitPaymentCalls := 0
    earlyReturn := false }

/-- main (main.rs lines 289 to 370) from motor initialization on: drive
the motor pin low, show the initial invoice screen (display error:
early return through the question mark operator), run the stdin loop,
and on a loop break run the cleanup that drives the motor pin low again
(line 365). An early return skips the cleanup. -/
def mainRun (stdin : List StdinItem) (disp : List Bool) : MachineState :=
  if disp.headD true = false then { initState with earlyReturn := true }
  else
    let m1 := mainLoop stdin disp.tail initState
    if m1.earlyReturn then m1
    else { m1 with motorPin := false, pinTrace := m1.pinTrace ++ [false] }

/-! ## Concrete states used by witnesses and counterexamples -/

/-- A Fedimint state with no gateways, no logged operations and no
streams. -/
def stEmpty : FedimintState :=
  { gateways := [], operationLog := [], streams := [], nextHash := ⟨[0]⟩ }

/-- A state holding a fully validated incoming payment operation whose
transition stream is empty: the backend closed the stream without ever
delivering a terminal event. -/
def stClosedStream : FedimintState :=
  { gateways := []
    operationLog := [([1], { kind := "ln", variant := .receive })]
    streams := [([1], [])]
    nextHash := ⟨[0]⟩ }

/-- A state holding a validated incoming payment operation whose stream
delivers a single Canceled event with reason expired. -/
def stCanceledStream : FedimintState :=
  { gateways := []
    operationLog := [([3], { kind := "ln", variant := .receive })]
    streams := [([3], [.canceled "expired"])]
    nextHash := ⟨[0]⟩ }

/-- A state holding a validated incoming payment operation whose stream
delivers two transient events and then Claimed. -/
def stClaimedStream : FedimintState :=
  { gateways := []
    operationLog := [([6], { kind := "ln", variant := .receive })]
    streams := [([6], [.funded, .funded, .claimed])]
    nextHash := ⟨[0]⟩ }

/-- A state whose logged operation for key 9 belongs to a module other
than the Lightning one. -/
def stWrongKind : FedimintState :=
  { gateways := []
    operationLog := [([9], { kind := "mint", variant := .receive })]
    streams := []
    nextHash := ⟨[0]⟩ }

/-- A state whose logged operation for key 9 is a Lightning operation of
the outgoing payment variant. -/
def stWrongVariant : FedimintState :=
  { gateways := []
    operationLog := [([9], { kind := "ln", variant := .pay })]
    streams := []
    nextHash := ⟨[0]⟩ }

/-- A state with one available gateway and a fresh operation log, ready
for invoice issuance. -/
def stIssue : FedimintState :=
  { gateways := [⟨0⟩], operationLog := [], streams := [], nextHash := ⟨[7]⟩ }

/-! ## Helper lemmas -/

/-- The watch loop ignores any prefix of transient events: prefixing a
stream with non-terminal events does not change the outcome nor the
unconsumed suffix. -/
theorem watchRun_append (pre rest : List LnReceiveState)
    (hpre : ∀ x ∈ pre, x.isTerminal = false) :
    watchRun (pre ++ rest) = watchRun rest := by
  induction pre with
  | nil => rfl
  | cons x xs ih =>
    have hx : x.isTerminal = false := hpre x (by simp)
    have hxs : ∀ y ∈ xs, y.isTerminal = false := fun y hy => hpre y (by simp [hy])
    cases x with
    | claimed => simp [LnReceiveState.isTerminal] at hx
    | canceled reason => simp [LnReceiveState.isTerminal] at hx
    | created => simpa [watchRun] using ih hxs
    | waitingForPayment => simpa [watchRun] using ih hxs
    | funded => simpa [watchRun] using ih hxs
    | awaitingFunds => simpa [watchRun] using ih hxs

/-- Once the three validation steps pass, await_payment_by_hash is the
watch loop over the subscribed stream, and the subscription happened. -/
theorem awaitRun_validated (st : FedimintState) (h : Sha256Hash)
    (op : OperationLogEntry) (s : List LnReceiveState)
    (hop : lookupOperation st (OperationId.ofHash h) = some op)
    (hkind : op.kind = "ln") (hvar : op.variant.isReceive = true)
    (hs : lookupStream st (OperationId.ofHash h) = some s) :
    awaitPaymentByHashRun st h = ((watchRun s).1, true) := by
  simp [awaitPaymentByHashRun, hop, hkind, hvar, hs]

/-- Appending the current pin level to a list of low levels keeps every
element low when the pin is low. -/
theorem loopHeads_snoc_false {l : List Bool} {p : Bool}
    (hl : ∀ b ∈ l, b = false) (hp : p = false) :
    ∀ b ∈ l ++ [p], b = false := by
  intro b hb
  rcases List.mem_append.1 hb with h | h
  · exact hl b h
  · rw [List.mem_singleton.1 h]
    exact hp

/-- Main loop invariant: starting from a state with the motor pin low
and every recorded loop head low, the loop ends with the motor pin low
and every recorded loop head low, for every stdin input and every
sequence of display results. -/
theorem mainLoop_inv (stdin : List StdinItem) :
    ∀ (disp : List Bool) (m : MachineState),
      m.motorPin = false → (∀ b ∈ m.loopHeads, b = false) →
      (mainLoop stdin disp m).motorPin = false ∧
        ∀ b ∈ (mainLoop stdin disp m).loopHeads, b = false := by
  induction stdin with
  | nil =>
    intro disp m hm hl
    exact ⟨hm, loopHeads_snoc_false hl hm⟩
  | cons item rest ih =>
    intro disp m hm hl
    cases item with
    | error e => exact ⟨hm, loopHeads_snoc_false hl hm⟩
    | ok line =>
      simp only [mainLoop, dispense_candy]
      split
      · exact ⟨hm, loopHeads_snoc_false hl hm⟩
      · split
        · exact ⟨rfl, loopHeads_snoc_false hl hm⟩
        · exact ih _ _ rfl (loopHeads_snoc_false hl hm)

/-- The main loop never calls into the payment coordinator: the count of
await_payment calls is left unchanged. -/
theorem mainLoop_awaitCalls (stdin : List StdinItem) :
    ∀ (disp : List Bool) (m : MachineState),
      (mainLoop stdin disp m).awaitPaymentCalls = m.awaitPaymentCalls := by
  induction stdin with
  | nil => intro disp m; rfl
  | cons item rest ih =>
    intro disp m
    cases item with
    | error e => rfl
    | ok line =>
      simp only [mainLoop, dispense_candy]
      split
      · rfl
      · split
        · rfl
        · rw [ih]

/-! ## Claim theorems -/

/-- Claim C1 (code bug in main.rs): the claim states that the motor pin
is raised only after await_payment returned success and that no manual
stdin trigger dispenses in the default path. The code does the
opposite: main.rs never calls into the payment coordinator at all, and
its default loop dispenses on every line read from stdin. Evaluating
the model of main on the input consisting of one successfully read
stdin line, with every display call succeeding: the dispense ran once,
the motor pin was raised (the pin trace contains a high write), and the
number of calls into await_payment is zero; moreover, for every input
whatsoever, main makes zero calls into await_payment. -/
theorem c1_manual_trigger_dispenses_without_payment :
    (mainRun [Except.ok "line"] []).dispenses = 1 ∧
    (mainRun [Except.ok "line"] []).pinTrace = [false, true, false, false] ∧
    (mainRun [Except.ok "line"] []).awaitPaymentCalls = 0 ∧
    ∀ (stdin : List StdinItem) (disp : List Bool),
      (mainRun stdin disp).awaitPaymentCalls = 0 := by
  refine ⟨rfl, rfl, rfl, ?_⟩
  intro stdin disp
  simp only [mainRun]
  split
  · rfl
  · split
    · exact mainLoop_awaitCalls stdin disp.tail initState
    · exact mainLoop_awaitCalls stdin disp.tail initState

/-- Claim C2, counterexample to the claim as stated: on a validated
operation whose stream closes with no terminal event, the function does
not return an error value to its caller at all: it panics (the
unreachable macro at fedimint.rs line 214) with the message Stream
ended unexpectedly, so the result is not an Err return. -/
theorem c2_counterexample :
    await_payment_by_hash stClosedStream ⟨[1]⟩ = .panic "Stream ended unexpectedly" ∧
    (await_payment_by_hash stClosedStream ⟨[1]⟩).isErr = false := by
  exact ⟨rfl, rfl⟩

/-- Claim C2 as amended: for every finite transition stream that ends
without ever emitting a terminal state, await_payment_by_hash on a
validated operation neither hangs nor returns a default success value:
it panics with the distinct message Stream ended unexpectedly, rather
than returning an error value to its caller. -/
theorem c2_stream_exhausted_panics (st : FedimintState) (h : Sha256Hash)
    (op : OperationLogEntry) (s : List LnReceiveState)
    (hop : lookupOperation st (OperationId.ofHash h) = some op)
    (hkind : op.kind = "ln") (hvar : op.variant.isReceive = true)
    (hs : lookupStream st (OperationId.ofHash h) = some s)
    (hnt : ∀ x ∈ s, x.isTerminal = false) :
    await_payment_by_hash st h = .panic "Stream ended unexpectedly" ∧
    await_payment_by_hash st h ≠ .ok := by
  have h1 := awaitRun_validated st h op s hop hkind hvar hs
  have h2 : watchRun s = (.panic "Stream ended unexpectedly", []) := by
    have h3 := watchRun_append s [] hnt
    simpa [watchRun] using h3
  constructor
  · simp [await_payment_by_hash, h1, h2]
  · simp [await_payment_by_hash, h1, h2]

/-- Witness for C2 at a concrete state: the validated operation under
key 1 has an empty stream; the result is the panic. -/
theorem c2_witness :
    await_payment_by_hash stClosedStream ⟨[1]⟩ = .panic "Stream ended unexpectedly" ∧
    await_payment_by_hash stClosedStream ⟨[1]⟩ ≠ .ok :=
  c2_stream_exhausted_panics stClosedStream ⟨[1]⟩
    { kind := "ln", variant := .receive } [] rfl rfl rfl rfl (by simp)

/-- Claim C3, counterexample to the claim as stated: on the stream that
emits a single Canceled event with reason expired, the function does
not return a distinguishable Canceled outcome: it returns a generic
error (the same Err constructor as the unknown operation validation
failure) whose message is Payment was canceled: expired. -/
theorem c3_counterexample :
    await_payment_by_hash stCanceledStream ⟨[3]⟩ = .err "Payment was canceled: expired" ∧
    (await_payment_by_hash stCanceledStream ⟨[3]⟩).isErr =
      (await_payment_by_hash stEmpty ⟨[3]⟩).isErr := by
  exact ⟨rfl, rfl⟩

/-- Claim C3 as amended: for every stream whose first terminal event is
Canceled with some reason, await_payment_by_hash returns immediately an
error whose message is the string Payment was canceled: followed by the
reason from the backend; the reason is carried in the message of a
generic error, delivered through the same error channel as the internal
validation errors, not as a distinct typed Canceled outcome. -/
theorem c3_canceled_reason_in_error (st : FedimintState) (h : Sha256Hash)
    (op : OperationLogEntry) (pre post : List LnReceiveState) (reason : String)
    (hop : lookupOperation st (OperationId.ofHash h) = some op)
    (hkind : op.kind = "ln") (hvar : op.variant.isReceive = true)
    (hs : lookupStream st (OperationId.ofHash h) = some (pre ++ .canceled reason :: post))
    (hpre : ∀ x ∈ pre, x.isTerminal = false) :
    await_payment_by_hash st h = .err ("Payment was canceled: " ++ reason) := by
  have h1 := awaitRun_validated st h op (pre ++ .canceled reason :: post) hop hkind hvar hs
  have h2 := watchRun_append pre (.canceled reason :: post) hpre
  simp [await_payment_by_hash, h1, h2, watchRun]

/-- Witness for C3 at a concrete state: stream with the single event
Canceled expired; the result is the error with message Payment was
canceled: expired. -/
theorem c3_witness :
    await_payment_by_hash stCanceledStream ⟨[3]⟩ = .err "Payment was canceled: expired" :=
  c3_canceled_reason_in_error stCanceledStream ⟨[3]⟩
    { kind := "ln", variant := .receive } [] [] "expired" rfl rfl rfl rfl (by simp)

/-- Claim C4: await_payment_by_hash performs its three validation steps
in order, each with a distinct failure mode: with no logged operation
for the key, it fails with the unknown operation error and never
subscribes; with a logged operation of a kind other than ln, it fails
with the wrong kind error (regardless of variant) and never subscribes;
with an ln operation whose metadata variant is not the incoming
payment, it fails with the wrong variant error and never subscribes;
and when all three checks pass, the stream subscription happens. The
three error messages are pairwise distinct. -/
theorem c4_validation_order (st : FedimintState) (h : Sha256Hash) :
    (lookupOperation st (OperationId.ofHash h) = none →
      awaitPaymentByHashRun st h =
        (.err "No operation found for payment hash, was the invoice issued by us?", false)) ∧
    (∀ op, lookupOperation st (OperationId.ofHash h) = some op → op.kind ≠ "ln" →
      awaitPaymentByHashRun st h =
        (.err "Operation associated with payment hash is not an LN operation", false)) ∧
    (∀ op, lookupOperation st (OperationId.ofHash h) = some op → op.kind = "ln" →
      op.variant.isReceive = false →
      awaitPaymentByHashRun st h =
        (.err "Operation associated with the payment hash is not an incoming payment", false)) ∧
    (∀ op, lookupOperation st (OperationId.ofHash h) = some op → op.kind = "ln" →
      op.variant.isReceive = true →
      (awaitPaymentByHashRun st h).2 = true) ∧
    ("No operation found for payment hash, was the invoice issued by us?" ≠
      "Operation associated with payment hash is not an LN operation" ∧
     "No operation found for payment hash, was the invoice issued by us?" ≠
      "Operation associated with the payment hash is not an incoming payment" ∧
     "Operation associated with payment hash is not an LN operation" ≠
      "Operation associated with the payment hash is not an incoming payment") := by
  refine ⟨?_, ?_, ?_, ?_, by decide, by decide, by decide⟩
  · intro hop
    simp [awaitPaymentByHashRun, hop]
  · intro op hop hk
    simp [awaitPaymentByHashRun, hop, hk]
  · intro op hop hk hv
    simp [awaitPaymentByHashRun, hop, hk, hv]
  · intro op hop hk hv
    cases hls : lookupStream st (OperationId.ofHash h) with
    | none => simp [awaitPaymentByHashRun, hop, hk, hv, hls]
    | some s => simp [awaitPaymentByHashRun, hop, hk, hv, hls]

/-- Witness for C4 at concrete states: the empty log gives the unknown
operation error, a mint kind operation gives the wrong kind error, an
ln pay operation gives the wrong variant error (all three without
subscribing), and the validated operation of the closed stream state
reaches the subscription. -/
theorem c4_witness :
    awaitPaymentByHashRun stEmpty ⟨[9]⟩ =
      (.err "No operation found for payment hash, was the invoice issued by us?", false) ∧
    awaitPaymentByHashRun stWrongKind ⟨[9]⟩ =
      (.err "Operation associated with payment hash is not an LN operation", false) ∧
    awaitPaymentByHashRun stWrongVariant ⟨[9]⟩ =
      (.err "Operation associated with the payment hash is not an incoming payment", false) ∧
    (awaitPaymentByHashRun stClosedStream ⟨[1]⟩).2 = true := by
  refine ⟨(c4_validation_order stEmpty ⟨[9]⟩).1 (by decide),
    (c4_validation_order stWrongKind ⟨[9]⟩).2.1
      { kind := "mint", variant := .receive } (by decide) (by decide),
    (c4_validation_order stWrongVariant ⟨[9]⟩).2.2.1
      { kind := "ln", variant := .pay } (by decide) rfl rfl,
    (c4_validation_order stClosedStream ⟨[1]⟩).2.2.2.1
      { kind := "ln", variant := .receive } (by decide) rfl rfl⟩

/-- Claim C5 (backend registration modelled from the spec): for every
amount greater than zero and every valid description, when a gateway is
available, lightning_invoice succeeds with the invoice and state
produced by the backend create call, the operation record registered
under the key derived from the payment hash of the fresh invoice is a
validated incoming payment record (kind ln, variant receive), and
await_payment_by_hash on that hash in the new state passes all three
validation steps and reaches the stream subscription. -/
theorem c5_issue_resolve_roundtrip (st : FedimintState) (amount : Nat)
    (desc : String) (gw : Gateway) (hgw : get_gateway st = some gw)
    (_hamt : 0 < amount) (hdesc : descriptionValid desc = true) :
    lightning_invoice st amount desc = .ok (create_bolt11_invoice st amount desc gw) ∧
    lookupOperation (create_bolt11_invoice st amount desc gw).2
        (OperationId.ofHash (create_bolt11_invoice st amount desc gw).1.paymentHash) =
      some { kind := "ln", variant := .receive } ∧
    (awaitPaymentByHashRun (create_bolt11_invoice st amount desc gw).2
        (create_bolt11_invoice st amount desc gw).1.paymentHash).2 = true := by
  have hlook : lookupOperation (create_bolt11_invoice st amount desc gw).2
      (OperationId.ofHash (create_bolt11_invoice st amount desc gw).1.paymentHash) =
      some { kind := "ln", variant := .receive } := by
    simp [create_bolt11_invoice, lookupOperation]
  refine ⟨?_, hlook, ?_⟩
  · simp [lightning_invoice, lightningInvoiceRun, hgw, hdesc]
  · cases hls : lookupStream (create_bolt11_invoice st amount desc gw).2
        (OperationId.ofHash (create_bolt11_invoice st amount desc gw).1.paymentHash) with
    | none => simp [awaitPaymentByHashRun, hlook, hls, LightningOperationMetaVariant.isReceive]
    | some s => simp [awaitPaymentByHashRun, hlook, hls, LightningOperationMetaVariant.isReceive]

/-- Witness for C5 at a concrete state: one gateway, fresh log, amount
42000 msats, description candy. -/
theorem c5_witness :
    0 < 42000 ∧ descriptionValid "candy" = true ∧
    lightning_invoice stIssue 42000 "candy" =
      .ok (create_bolt11_invoice stIssue 42000 "candy" ⟨0⟩) ∧
    lookupOperation (create_bolt11_invoice stIssue 42000 "candy" ⟨0⟩).2
        (OperationId.ofHash
          (create_bolt11_invoice stIssue 42000 "candy" ⟨0⟩).1.paymentHash) =
      some { kind := "ln", variant := .receive } ∧
    (awaitPaymentByHashRun (create_bolt11_invoice stIssue 42000 "candy" ⟨0⟩).2
        (create_bolt11_invoice stIssue 42000 "candy" ⟨0⟩).1.paymentHash).2 = true := by
  have h := c5_issue_resolve_roundtrip stIssue 42000 "candy" ⟨0⟩ rfl (by decide) (by decide)
  exact ⟨by decide, by decide, h.1, h.2.1, h.2.2⟩

/-- Claim C6: the watch loop skips every non-terminal event and returns
at the first terminal event: on a validated operation whose stream is a
prefix of transient events followed by Claimed and then anything, the
function returns the success outcome, and the watch loop never consumes
the events after the first terminal one (they are exactly the
unconsumed suffix). -/
theorem c6_skips_nonterminal (st : FedimintState) (h : Sha256Hash)
    (op : OperationLogEntry) (pre post : List LnReceiveState)
    (hop : lookupOperation st (OperationId.ofHash h) = some op)
    (hkind : op.kind = "ln") (hvar : op.variant.isReceive = true)
    (hs : lookupStream st (OperationId.ofHash h) = some (pre ++ .claimed :: post))
    (hpre : ∀ x ∈ pre, x.isTerminal = false) :
    await_payment_by_hash st h = .ok ∧
    watchRun (pre ++ .claimed :: post) = (.ok, post) := by
  have h1 := awaitRun_validated st h op (pre ++ .claimed :: post) hop hkind hvar hs
  have h2 := watchRun_append pre (.claimed :: post) hpre
  constructor
  · simp [await_payment_by_hash, h1, h2, watchRun]
  · simp [h2, watchRun]

/-- Witness for C6 at a concrete state: the stream emits two transient
Funded events and then Claimed, yielding the success outcome with the
empty unconsumed suffix. -/
theorem c6_witness :
    await_payment_by_hash stClaimedStream ⟨[6]⟩ = .ok ∧
    watchRun [.funded, .funded, .claimed] = (.ok, []) :=
  c6_skips_nonterminal stClaimedStream ⟨[6]⟩
    { kind := "ln", variant := .receive } [.funded, .funded] [] rfl rfl rfl rfl
    (by decide)

/-- Claim C7: when the backend reports no available gateway,
lightning_invoice fails with the no gateway error and invoice issuance
does not proceed: the backend create call is never reached (the
instrumented call record is none), so no invoice is returned and no
operation is registered. -/
theorem c7_no_gateway (st : FedimintState) (amount : Nat) (desc : String)
    (hgw : st.gateways = []) :
    lightningInvoiceRun st amount desc = (.error "No LN gateway available", none) := by
  simp [lightningInvoiceRun, get_gateway, hgw]

/-- Witness for C7 at a concrete state with an empty gateway list. -/
theorem c7_witness :
    lightningInvoiceRun stEmpty 42000 "candy" = (.error "No LN gateway available", none) :=
  c7_no_gateway stEmpty 42000 "candy" rfl

/-- Claim C8: await_payment on an invoice returns exactly the result of
await_payment_by_hash on the payment hash of that invoice; the
operation identifier derived from the hash is the byte sequence of the
hash and nothing else; consequently the result depends on the invoice
only through its payment hash. -/
theorem c8_await_payment_equiv (st : FedimintState) (invoice : Bolt11Invoice) :
    await_payment st invoice = await_payment_by_hash st invoice.paymentHash ∧
    OperationId.ofHash invoice.paymentHash = invoice.paymentHash.bytes ∧
    ∀ invoice2 : Bolt11Invoice, invoice2.paymentHash = invoice.paymentHash →
      await_payment st invoice2 = await_payment st invoice := by
  refine ⟨rfl, rfl, ?_⟩
  intro invoice2 h2
  simp [await_payment, h2]

/-- Witness for C8: two invoices sharing a payment hash but differing
in amount and description give the same awaited result. -/
theorem c8_witness :
    await_payment stEmpty { paymentHash := ⟨[8]⟩, amountMsats := 1, description := "a" } =
      await_payment stEmpty { paymentHash := ⟨[8]⟩, amountMsats := 2, description := "b" } :=
  (c8_await_payment_equiv stEmpty
    { paymentHash := ⟨[8]⟩, amountMsats := 2, description := "b" }).2.2
    { paymentHash := ⟨[8]⟩, amountMsats := 1, description := "a" } rfl

/-- Claim C9: lightning_invoice performs no amount validation of its
own: with a gateway available and any valid description, a call with
amount zero is not rejected; the zero amount is passed unchanged to the
backend create call (the instrumented call record is exactly the pair
of zero and the description) and the issued invoice carries amount
zero. -/
theorem c9_zero_amount_unchecked (st : FedimintState) (desc : String) (gw : Gateway)
    (hgw : get_gateway st = some gw) (hdesc : descriptionValid desc = true) :
    (lightningInvoiceRun st 0 desc).2 = some (0, desc) ∧
    lightning_invoice st 0 desc = .ok (create_bolt11_invoice st 0 desc gw) ∧
    (create_bolt11_invoice st 0 desc gw).1.amountMsats = 0 := by
  refine ⟨?_, ?_, rfl⟩
  · simp [lightningInvoiceRun, hgw, hdesc]
  · simp [lightning_invoice, lightningInvoiceRun, hgw, hdesc]

/-- Witness for C9 at a concrete state: one gateway, description candy,
amount zero accepted and passed through. -/
theorem c9_witness :
    descriptionValid "candy" = true ∧
    (lightningInvoiceRun stIssue 0 "candy").2 = some (0, "candy") ∧
    (create_bolt11_invoice stIssue 0 "candy" ⟨0⟩).1.amountMsats = 0 := by
  have h := c9_zero_amount_unchecked stIssue "candy" ⟨0⟩ rfl (by decide)
  exact ⟨by decide, h.1, h.2.2⟩

/-- Claim C10: the motor pin is never left energized: for every stdin
input and every sequence of display results, main ends with the motor
pin low; the pin level sampled at the head of every main loop iteration
is low; dispense_candy unconditionally returns the pin to low (its pin
trace is the high write followed by the low write); the pin is driven
low at program start; and the dispense duration constant is 500
milliseconds. -/
theorem c10_motor_pin_invariant (stdin : List StdinItem) (disp : List Bool) :
    (mainRun stdin disp).motorPin = false ∧
    (∀ b ∈ (mainRun stdin disp).loopHeads, b = false) ∧
    (∀ m : MachineState, (dispense_candy m).1.motorPin = false ∧
      (dispense_candy m).1.pinTrace = m.pinTrace ++ [true, false]) ∧
    initState.motorPin = false ∧
    MOTOR_DISPENSE_DURATION_MS = 500 := by
  have hInv := mainLoop_inv stdin disp.tail initState rfl (by intro b hb; cases hb)
  refine ⟨?_, ?_, fun m => ⟨rfl, rfl⟩, rfl, rfl⟩
  · simp only [mainRun]
    split
    · rfl
    · split
      · exact hInv.1
      · rfl
  · simp only [mainRun]
    split
    · intro b hb; cases hb
    · split
      · exact hInv.2
      · exact hInv.2

/-- Witness for C10 on the run with one stdin line and all displays
succeeding: the final motor pin is low and the level sampled at the
head of the first loop iteration is low. -/
theorem c10_witness :
    (mainRun [Except.ok "line"] []).motorPin = false ∧
    (mainRun [Except.ok "line"] []).loopHeads.headD true = false := by
  refine ⟨(c10_motor_pin_invariant [Except.ok "line"] []).1, ?_⟩
  exact (c10_motor_pin_invariant [Except.ok "line"] []).2.1 _ (by decide)

end CandyPi
